import Mathlib

/-!
Shallow embedding of the food-delivery backend's core workflow
(order creation, delivery-status updates, payment settlement, listing),
translated from `src/api/routers/orders.py`, `src/api/routers/payments.py`,
`src/api/routers/menu_items.py`, `src/api/models/schemas.py` and
`src/api/models/db_models.py`.

The relational store is modelled as an explicit `Db` state; each route
handler is a pure function `Db → request → Db × Except HTTPError result`.
A raised `HTTPException` before `db.commit()` leaves the committed store
unchanged (`get_db` closes the session without committing, rolling back any
staged inserts), so every error path returns the input state unchanged.
Pydantic body validation and FastAPI `Query` validation are modelled in
`*_endpoint` wrappers that reject invalid input with a 422 error before the
handler body runs. Python integers are modelled as `Int`; row identifiers
as `Nat`; `datetime.utcnow` timestamps as a logical clock `Nat` carried in
the state.
-/

/-- ORM row of table `restaurants` (db_models.Restaurant). -/
structure Restaurant where
  id : Nat
  name : String
  description : Option String
  is_active : Bool
  created_at : Nat
  deriving Repr, DecidableEq

/-- ORM row of table `menu_items` (db_models.MenuItem). -/
structure MenuItem where
  id : Nat
  restaurant_id : Nat
  name : String
  description : Option String
  price_cents : Int
  is_available : Bool
  created_at : Nat
  deriving Repr, DecidableEq

/-- ORM row of table `orders` (db_models.Order). -/
structure Order where
  id : Nat
  restaurant_id : Nat
  status : String
  total_cents : Int
  created_at : Nat
  deriving Repr, DecidableEq

/-- ORM row of table `order_items` (db_models.OrderItem). -/
structure OrderItem where
  id : Nat
  order_id : Nat
  menu_item_id : Nat
  quantity : Int
  price_cents_each : Int
  deriving Repr, DecidableEq

/-- ORM row of table `payments` (db_models.Payment). -/
structure Payment where
  id : Nat
  order_id : Nat
  provider : String
  amount_cents : Int
  created_at : Nat
  deriving Repr, DecidableEq

/-- The committed state of the relational store, plus autoincrement
counters and a logical clock standing in for `datetime.utcnow`. -/
structure Db where
  restaurants : List Restaurant
  menu_items : List MenuItem
  orders : List Order
  order_items : List OrderItem
  payments : List Payment
  next_menu_item_id : Nat
  next_order_id : Nat
  next_order_item_id : Nat
  next_payment_id : Nat
  clock : Nat
  deriving Repr, DecidableEq

/-- Model of `db.get(db_models.Restaurant, rid)`: primary-key lookup. -/
def Db.getRestaurant (st : Db) (rid : Nat) : Option Restaurant :=
  st.restaurants.find? (fun r => r.id == rid)

/-- Model of `db.get(db_models.MenuItem, mid)`: primary-key lookup. -/
def Db.getMenuItem (st : Db) (mid : Nat) : Option MenuItem :=
  st.menu_items.find? (fun mi => mi.id == mid)

/-- Model of `select(Order).where(Order.id == oid)` followed by `.first()`. -/
def Db.getOrder (st : Db) (oid : Nat) : Option Order :=
  st.orders.find? (fun o => o.id == oid)

/-- Payload of `HTTPException(status_code=..., detail=...)`. -/
structure HTTPError where
  status_code : Nat
  detail : String
  deriving Repr, DecidableEq

/-- Helper building an `HTTPException` value. -/
def http_error (c : Nat) (d : String) : HTTPError :=
  { status_code := c, detail := d }

/-- FastAPI's 422 response for a request failing pydantic / Query validation. -/
def validation_error : HTTPError :=
  http_error 422 "request validation failed"

/-- Pydantic schema `OrderItemCreate`: one requested order line. -/
structure OrderItemCreate where
  menu_item_id : Nat
  quantity : Int
  deriving Repr, DecidableEq

/-- Pydantic schema `OrderCreate`. -/
structure OrderCreate where
  restaurant_id : Nat
  items : List OrderItemCreate
  deriving Repr, DecidableEq

/-- Pydantic validation of `OrderCreate`: `items` has `min_length=1` and
each line has `quantity ≥ 1` (schemas.py, `OrderItemCreate.quantity` with
`ge=1`). -/
def OrderCreate.valid (p : OrderCreate) : Bool :=
  !p.items.isEmpty && p.items.all (fun l => decide (1 ≤ l.quantity))

/-- Pydantic schema `OrderItemRead`. -/
structure OrderItemRead where
  id : Nat
  menu_item_id : Nat
  quantity : Int
  price_cents_each : Int
  deriving Repr, DecidableEq

/-- Pydantic schema `OrderRead`. -/
structure OrderRead where
  id : Nat
  restaurant_id : Nat
  status : String
  total_cents : Int
  created_at : Nat
  items : List OrderItemRead
  deriving Repr, DecidableEq

/-- Model of `_order_to_read`: convert an ORM order to the API model, with its
items loaded from the store (`selectinload(Order.items)` returns the
order items rows of this order in insertion order). -/
def order_to_read (st : Db) (o : Order) : OrderRead :=
  { id := o.id
    restaurant_id := o.restaurant_id
    status := o.status
    total_cents := o.total_cents
    created_at := o.created_at
    items := (st.order_items.filter (fun oi => oi.order_id == o.id)).map
      (fun oi =>
        { id := oi.id
          menu_item_id := oi.menu_item_id
          quantity := oi.quantity
          price_cents_each := oi.price_cents_each }) }

/-- Detail string of the invalid-reference failure in `create_order`. -/
def invalid_item_detail (mid : Nat) : String :=
  s!"Invalid menu item {mid} for this restaurant"

/-- Detail string of the unavailable-item failure in `create_order`. -/
def unavailable_detail (mid : Nat) : String :=
  s!"Menu item {mid} is not available"

/-- The validation/pricing loop body of `create_order` (orders.py lines
49-66): walk the requested lines in order; for each, fetch the menu item,
fail 400 if it is absent or belongs to another restaurant, fail 400 if it
is not available, otherwise snapshot `price_each`, accumulate the running
total and stage an `OrderItem` row. Returns the staged rows (in input
order), the next free order-item id and the final total. -/
def process_lines (st : Db) (rid : Nat) (oid : Nat) :
    List OrderItemCreate → Nat → Int → Except HTTPError (List OrderItem × Nat × Int)
  | [], next_id, total => .ok ([], next_id, total)
  | line :: rest, next_id, total =>
    match st.getMenuItem line.menu_item_id with
    | none => .error (http_error 400 (invalid_item_detail line.menu_item_id))
    | some menu_item =>
      if menu_item.restaurant_id ≠ rid then
        .error (http_error 400 (invalid_item_detail line.menu_item_id))
      else if menu_item.is_available = false then
        .error (http_error 400 (unavailable_detail line.menu_item_id))
      else
        let price_each := menu_item.price_cents
        let order_item : OrderItem :=
          { id := next_id
            order_id := oid
            menu_item_id := line.menu_item_id
            quantity := line.quantity
            price_cents_each := price_each }
        match process_lines st rid oid rest (next_id + 1) (total + price_each * line.quantity) with
        | .error e => .error e
        | .ok (items, nid, tot) => .ok (order_item :: items, nid, tot)

/-- The `create_order` route body (orders.py lines 39-79), on an
already-validated payload: 404 if the restaurant is absent; otherwise
stage an order row, run the line loop, and on success commit the order
(with the computed total) and its items, then reload the order with items
for the response. On any failure the session is rolled back, so the
returned state is the input state. -/
def create_order (st : Db) (payload : OrderCreate) : Db × Except HTTPError OrderRead :=
  match st.getRestaurant payload.restaurant_id with
  | none => (st, .error (http_error 404 "Restaurant not found"))
  | some _ =>
    let oid := st.next_order_id
    match process_lines st payload.restaurant_id oid payload.items st.next_order_item_id 0 with
    | .error e => (st, .error e)
    | .ok (new_items, next_item_id, total) =>
      let order : Order :=
        { id := oid
          restaurant_id := payload.restaurant_id
          status := "created"
          total_cents := total
          created_at := st.clock }
      let committed : Db :=
        { st with
          orders := st.orders ++ [order]
          order_items := st.order_items ++ new_items
          next_order_id := oid + 1
          next_order_item_id := next_item_id
          clock := st.clock + 1 }
      match committed.getOrder oid with
      | none => (committed, .error (http_error 500 "order reload failed"))
      | some order_full => (committed, .ok (order_to_read committed order_full))

/-- The `POST /orders` endpoint: pydantic validation of the body, then the
`create_order` route body. -/
def create_order_endpoint (st : Db) (p : OrderCreate) : Db × Except HTTPError OrderRead :=
  if p.valid then create_order st p else (st, .error validation_error)

/-- The set `_VALID_STATUSES` (orders.py line 13). -/
def valid_statuses : List String :=
  ["created", "paid", "preparing", "out_for_delivery", "delivered", "cancelled"]

/-- Pydantic schema `DeliveryUpdate`. -/
structure DeliveryUpdate where
  status : String
  deriving Repr, DecidableEq

/-- Detail string of the invalid-status failure; the python code renders
`sorted(_VALID_STATUSES)`. -/
def invalid_status_detail : String :=
  "Invalid status. Allowed: [cancelled, created, delivered, out_for_delivery, paid, preparing]"

/-- The `update_delivery_status` route body (orders.py lines 137-154): 400 if
the payload status is not recognized, 404 if the order is absent,
otherwise overwrite the order's status unconditionally, commit and return
the updated order. -/
def update_delivery_status (st : Db) (order_id : Nat) (payload : DeliveryUpdate) :
    Db × Except HTTPError OrderRead :=
  if payload.status ∉ valid_statuses then
    (st, .error (http_error 400 invalid_status_detail))
  else
    match st.getOrder order_id with
    | none => (st, .error (http_error 404 "Order not found"))
    | some order =>
      let committed : Db :=
        { st with
          orders := st.orders.map (fun o =>
            if o.id == order_id then { o with status := payload.status } else o) }
      (committed, .ok (order_to_read committed { order with status := payload.status }))

/-- The `get_order` route body (orders.py lines 117-127): read-only. -/
def get_order (st : Db) (order_id : Nat) : Except HTTPError OrderRead :=
  match st.getOrder order_id with
  | none => .error (http_error 404 "Order not found")
  | some order => .ok (order_to_read st order)

/-- The SQL query of `list_orders` (orders.py lines 96-106):
`WHERE status = s` (when a filter is given) is applied first, then
`ORDER BY id DESC`, then `OFFSET`, then `LIMIT`. -/
def list_orders_query (st : Db) (status : Option String) (limit offset : Int) :
    List OrderRead :=
  let base := match status with
    | none => st.orders
    | some s => st.orders.filter (fun o => o.status == s)
  let sorted := base.insertionSort (fun a b => b.id ≤ a.id)
  (((sorted.drop offset.toNat).take limit.toNat).map (order_to_read st))

/-- The `GET /orders` endpoint: FastAPI `Query` defaults
(`limit=50`, `offset=0`) and validation (`1 ≤ limit ≤ 200`, `0 ≤ offset`,
a violation is rejected with 422 before the handler runs), then the query. -/
def list_orders_endpoint (st : Db) (status : Option String)
    (limit_q offset_q : Option Int) : Except HTTPError (List OrderRead) :=
  let limit := limit_q.getD 50
  let offset := offset_q.getD 0
  if limit < 1 then .error validation_error
  else if 200 < limit then .error validation_error
  else if offset < 0 then .error validation_error
  else .ok (list_orders_query st status limit offset)

/-- Pydantic schema `PaymentCreate`. -/
structure PaymentCreate where
  order_id : Nat
  amount_cents : Int
  provider : String
  deriving Repr, DecidableEq

/-- Pydantic validation of `PaymentCreate`: `amount_cents ≥ 0` (schemas.py
line 99, `ge=0`). -/
def PaymentCreate.valid (p : PaymentCreate) : Bool :=
  decide (0 ≤ p.amount_cents)

/-- Response body of `create_payment`:
`{"status": "ok", "order_id": ..., "order_status": ...}`. -/
structure PaymentResult where
  status : String
  order_id : Nat
  order_status : String
  deriving Repr, DecidableEq

/-- The `create_payment` route body (payments.py lines 34-52): 404 if the
order is absent; otherwise insert a `Payment` row unconditionally, set the
order status to "paid" when `amount_cents >= order.total_cents`, commit,
and report the resulting status. -/
def create_payment (st : Db) (payload : PaymentCreate) :
    Db × Except HTTPError PaymentResult :=
  match st.getOrder payload.order_id with
  | none => (st, .error (http_error 404 "Order not found"))
  | some order =>
    let payment : Payment :=
      { id := st.next_payment_id
        order_id := payload.order_id
        provider := payload.provider
        amount_cents := payload.amount_cents
        created_at := st.clock }
    let new_status := if payload.amount_cents ≥ order.total_cents then "paid" else order.status
    let committed : Db :=
      { st with
        orders := st.orders.map (fun o =>
          if o.id == payload.order_id then { o with status := new_status } else o)
        payments := st.payments ++ [payment]
        next_payment_id := st.next_payment_id + 1
        clock := st.clock + 1 }
    (committed, .ok { status := "ok", order_id := order.id, order_status := new_status })

/-- The `POST /payments` endpoint: pydantic validation of the body, then
the `create_payment` route body. -/
def create_payment_endpoint (st : Db) (p : PaymentCreate) :
    Db × Except HTTPError PaymentResult :=
  if p.valid then create_payment st p else (st, .error validation_error)

/-- Pydantic schema `MenuItemCreate`. -/
structure MenuItemCreate where
  restaurant_id : Nat
  name : String
  description : Option String
  price_cents : Int
  is_available : Bool
  deriving Repr, DecidableEq

/-- Pydantic validation of `MenuItemCreate`: `price_cents ≥ 0`
(schemas.py line 34, `ge=0`). -/
def MenuItemCreate.valid (p : MenuItemCreate) : Bool :=
  decide (0 ≤ p.price_cents)

/-- The `create_menu_item` route body (menu_items.py lines 21-37): 404 if the
restaurant is absent, otherwise insert the row and return it. -/
def create_menu_item (st : Db) (payload : MenuItemCreate) :
    Db × Except HTTPError MenuItem :=
  match st.getRestaurant payload.restaurant_id with
  | none => (st, .error (http_error 404 "Restaurant not found"))
  | some _ =>
    let item : MenuItem :=
      { id := st.next_menu_item_id
        restaurant_id := payload.restaurant_id
        name := payload.name
        description := payload.description
        price_cents := payload.price_cents
        is_available := payload.is_available
        created_at := st.clock }
    ({ st with
        menu_items := st.menu_items ++ [item]
        next_menu_item_id := st.next_menu_item_id + 1
        clock := st.clock + 1 }, .ok item)

/-- The `POST /menu-items` endpoint: pydantic validation, then the body. -/
def create_menu_item_endpoint (st : Db) (p : MenuItemCreate) :
    Db × Except HTTPError MenuItem :=
  if p.valid then create_menu_item st p else (st, .error validation_error)

/-- A requested line passes `create_order`'s per-line checks: its menu
item exists, belongs to the given restaurant and is available. -/
def line_menu_ok (st : Db) (rid : Nat) (line : OrderItemCreate) : Bool :=
  match st.getMenuItem line.menu_item_id with
  | none => false
  | some mi => mi.restaurant_id == rid && mi.is_available

/-- The error raised by `create_order`'s per-line checks for a failing
line: the invalid-reference 400 when the menu item is absent or belongs to
another restaurant, the unavailable 400 otherwise. -/
def line_error (st : Db) (rid : Nat) (line : OrderItemCreate) : HTTPError :=
  match st.getMenuItem line.menu_item_id with
  | none => http_error 400 (invalid_item_detail line.menu_item_id)
  | some mi =>
    if mi.restaurant_id ≠ rid then http_error 400 (invalid_item_detail line.menu_item_id)
    else http_error 400 (unavailable_detail line.menu_item_id)

/-- Store sanity: every committed order id and every committed order item's
owning order id is below the orders autoincrement counter (true of any
state the backend itself built, since ids are allocated from the counter). -/
def Db.Wf (st : Db) : Prop :=
  (∀ o ∈ st.orders, o.id < st.next_order_id) ∧
  (∀ oi ∈ st.order_items, oi.order_id < st.next_order_id)

instance (st : Db) : Decidable st.Wf := by
  unfold Db.Wf; infer_instance

instance : IsTotal Order (fun a b => b.id ≤ a.id) :=
  ⟨fun a b => Or.symm (Nat.le_total a.id b.id)⟩

instance : IsTrans Order (fun a b => b.id ≤ a.id) :=
  ⟨fun _ _ _ hab hbc => Nat.le_trans hbc hab⟩

/-- A requested line is invalid in the sense of the order-creation
validation: quantity below 1, or the per-line menu checks fail. -/
def line_invalid (st : Db) (rid : Nat) (line : OrderItemCreate) : Prop :=
  line.quantity < 1 ∨ line_menu_ok st rid line = false

instance (st : Db) (rid : Nat) (line : OrderItemCreate) :
    Decidable (line_invalid st rid line) := by
  unfold line_invalid; infer_instance

/-- Every field of an order except its mutable `status`. -/
def Order.frame (o : Order) : Nat × Nat × Int × Nat :=
  (o.id, o.restaurant_id, o.total_cents, o.created_at)

/-- An empty store. -/
def db_empty : Db :=
  { restaurants := [], menu_items := [], orders := [], order_items := []
    payments := [], next_menu_item_id := 1, next_order_id := 1
    next_order_item_id := 1, next_payment_id := 1, clock := 0 }

/-- A store with restaurant 1 owning menu item 1 (price 500, available)
and menu item 2 (price 300, unavailable). -/
def db_menu : Db :=
  { restaurants := [{ id := 1, name := "R1", description := none
                      is_active := true, created_at := 0 }]
    menu_items :=
      [{ id := 1, restaurant_id := 1, name := "M1", description := none
         price_cents := 500, is_available := true, created_at := 0 },
       { id := 2, restaurant_id := 1, name := "M2", description := none
         price_cents := 300, is_available := false, created_at := 0 }]
    orders := [], order_items := [], payments := []
    next_menu_item_id := 3, next_order_id := 1, next_order_item_id := 1
    next_payment_id := 1, clock := 1 }

/-- State `db_menu` after a committed order: order 1 (status "created",
total 1000) with one line of menu item 1, quantity 2. -/
def db_order : Db :=
  { db_menu with
    orders := [{ id := 1, restaurant_id := 1, status := "created"
                 total_cents := 1000, created_at := 1 }]
    order_items := [{ id := 1, order_id := 1, menu_item_id := 1
                      quantity := 2, price_cents_each := 500 }]
    next_order_id := 2, next_order_item_id := 2, clock := 2 }

/-- An order with `delivered` status, to exercise backward transitions. -/
def db_delivered : Db :=
  { db_order with
    orders := [{ id := 1, restaurant_id := 1, status := "delivered"
                 total_cents := 1000, created_at := 1 }] }

/-- A store holding only restaurant 1. -/
def rest_only : Db :=
  { restaurants := [{ id := 1, name := "R", description := none
                      is_active := true, created_at := 0 }]
    menu_items := [], orders := [], order_items := [], payments := []
    next_menu_item_id := 1, next_order_id := 1, next_order_item_id := 1
    next_payment_id := 1, clock := 1 }

/-- A zero-priced menu item creation request. -/
def free_item_req : MenuItemCreate :=
  { restaurant_id := 1, name := "Free", description := none
    price_cents := 0, is_available := true }

/-- State `rest_only` after creating the zero-priced menu item. -/
def db_free : Db := (create_menu_item_endpoint rest_only free_item_req).1

/-- An order request for one unit of the zero-priced item. -/
def free_order_req : OrderCreate :=
  { restaurant_id := 1, items := [{ menu_item_id := 1, quantity := 1 }] }

/-- State `db_free` after creating the zero-total order. -/
def db_free_order : Db := (create_order_endpoint db_free free_order_req).1

/-- A zero-amount payment against the zero-total order. -/
def free_payment : PaymentCreate :=
  { order_id := 1, amount_cents := 0, provider := "mock" }

/-- Lemma: `find?` commutes with mapping a function that preserves the predicate. -/
theorem find?_map_pred {α : Type} (p : α → Bool) (f : α → α)
    (hp : ∀ a, p (f a) = p a) :
    ∀ l : List α, (l.map f).find? p = (l.find? p).map f := by
  intro l
  induction l with
  | nil => rfl
  | cons a l ih =>
    simp only [List.map_cons, List.find?_cons, hp a]
    cases hpa : p a <;> simp [ih, hpa]

/-- Replacing the status of the order rows matching `oid` turns the first
row found for `oid` into that same row with the new status. -/
theorem find_map_set_status (orders : List Order) (oid : Nat) (ns : String)
    (order : Order) (h : orders.find? (fun o => o.id == oid) = some order) :
    (orders.map (fun o => if o.id == oid then { o with status := ns } else o)).find?
      (fun o => o.id == oid) = some { order with status := ns } := by
  have hp := List.find?_some h
  rw [find?_map_pred _ _ (fun a => by
    by_cases hx : (a.id == oid) = true <;> simp [hx]), h]
  have hp2 : order.id = oid := by simpa using hp
  simp [hp2]

/-- C6: for every order and every status string not among the six
recognized values, `update_delivery_status` fails with the invalid-status
error (400) and the store — in particular the order's status and all other
order state — is unchanged. -/
theorem update_delivery_status_rejects_invalid (st : Db) (oid : Nat)
    (p : DeliveryUpdate) (h : p.status ∉ valid_statuses) :
    (update_delivery_status st oid p).1 = st ∧
    (update_delivery_status st oid p).2 =
      .error (http_error 400 invalid_status_detail) := by
  unfold update_delivery_status
  rw [if_pos h]
  exact ⟨rfl, rfl⟩

theorem update_delivery_status_rejects_invalid_witness :
    ({ status := "bogus" } : DeliveryUpdate).status ∉ valid_statuses ∧
    ((update_delivery_status db_order 1 { status := "bogus" }).1 = db_order ∧
     (update_delivery_status db_order 1 { status := "bogus" }).2 =
       .error (http_error 400 invalid_status_detail)) :=
  ⟨by decide,
   update_delivery_status_rejects_invalid db_order 1 { status := "bogus" } (by decide)⟩

/-- C9: the status-validity check runs before the order-existence check:
with an unrecognized status string and a nonexistent order id the result is
the invalid-status error (400), not the 404 not-found error. -/
theorem update_delivery_status_invalid_before_notfound (st : Db) (oid : Nat)
    (p : DeliveryUpdate) (h : p.status ∉ valid_statuses)
    (h2 : st.getOrder oid = none) :
    (update_delivery_status st oid p).2 =
      .error (http_error 400 invalid_status_detail) ∧
    (update_delivery_status st oid p).2 ≠
      .error (http_error 404 "Order not found") := by
  unfold update_delivery_status
  rw [if_pos h]
  refine ⟨rfl, ?_⟩
  intro hc
  have := Except.error.inj hc
  have h400 := congrArg HTTPError.status_code this
  simp [http_error] at h400

theorem update_delivery_status_invalid_before_notfound_witness :
    ({ status := "bogus" } : DeliveryUpdate).status ∉ valid_statuses ∧
    db_empty.getOrder 7 = none ∧
    ((update_delivery_status db_empty 7 { status := "bogus" }).2 =
       .error (http_error 400 invalid_status_detail) ∧
     (update_delivery_status db_empty 7 { status := "bogus" }).2 ≠
       .error (http_error 404 "Order not found")) :=
  ⟨by decide, by decide,
   update_delivery_status_invalid_before_notfound db_empty 7 { status := "bogus" }
     (by decide) (by decide)⟩

/-- C5: for every existing order and every recognized status value,
`update_delivery_status` succeeds, the returned order carries the new
status regardless of the prior one, and a subsequent `get_order` on the
resulting store reflects the new status. -/
theorem update_delivery_status_any_transition (st : Db) (oid : Nat)
    (p : DeliveryUpdate) (order : Order) (hs : p.status ∈ valid_statuses)
    (hord : st.getOrder oid = some order) :
    ∃ ord : OrderRead,
      (update_delivery_status st oid p).2 = .ok ord ∧ ord.status = p.status ∧
      ∃ ord2 : OrderRead,
        get_order (update_delivery_status st oid p).1 oid = .ok ord2 ∧
        ord2.status = p.status := by
  unfold update_delivery_status
  rw [if_neg (by simp [hs])]
  rw [hord]
  refine ⟨_, rfl, rfl, ?_⟩
  have hfind := find_map_set_status st.orders oid p.status order hord
  unfold get_order Db.getOrder
  simp only [hfind]
  exact ⟨_, rfl, rfl⟩

theorem update_delivery_status_any_transition_witness :
    ({ status := "created" } : DeliveryUpdate).status ∈ valid_statuses ∧
    db_delivered.getOrder 1 =
      some { id := 1, restaurant_id := 1, status := "delivered"
             total_cents := 1000, created_at := 1 } ∧
    (∃ ord : OrderRead,
      (update_delivery_status db_delivered 1 { status := "created" }).2 = .ok ord ∧
      ord.status = ({ status := "created" } : DeliveryUpdate).status ∧
      ∃ ord2 : OrderRead,
        get_order (update_delivery_status db_delivered 1 { status := "created" }).1 1 =
          .ok ord2 ∧
        ord2.status = ({ status := "created" } : DeliveryUpdate).status) :=
  ⟨by decide, by decide,
   update_delivery_status_any_transition db_delivered 1 { status := "created" }
     { id := 1, restaurant_id := 1, status := "delivered"
       total_cents := 1000, created_at := 1 } (by decide) (by decide)⟩

/-- C3: for every payment against an existing order (with the validated
`amount_cents ≥ 0`), the reported `order_status` is "paid" exactly when the
single payment's amount covers the order's total and is the pre-payment
status otherwise, and the stored order afterwards carries exactly that
status (no accumulation across payments: the rule compares only this
payment's amount with the order's fixed total). -/
theorem create_payment_sets_paid_iff_covered (st : Db) (p : PaymentCreate)
    (order : Order) (hord : st.getOrder p.order_id = some order)
    (hamt : 0 ≤ p.amount_cents) :
    (create_payment_endpoint st p).2 =
      .ok { status := "ok", order_id := order.id,
            order_status :=
              if p.amount_cents ≥ order.total_cents then "paid" else order.status } ∧
    (create_payment_endpoint st p).1.getOrder p.order_id =
      some { order with
             status :=
               if p.amount_cents ≥ order.total_cents then "paid" else order.status } := by
  have hv : p.valid = true := by simp [PaymentCreate.valid, hamt]
  unfold create_payment_endpoint
  rw [if_pos hv]
  unfold create_payment
  rw [hord]
  refine ⟨rfl, ?_⟩
  unfold Db.getOrder
  exact find_map_set_status st.orders p.order_id _ order hord

/-- The order row of `db_order`. -/
def order_w : Order :=
  { id := 1, restaurant_id := 1, status := "created"
    total_cents := 1000, created_at := 1 }

/-- A payment covering `order_w`'s total exactly. -/
def pay_w : PaymentCreate := { order_id := 1, amount_cents := 1000, provider := "mock" }

theorem create_payment_sets_paid_iff_covered_witness :
    db_order.getOrder pay_w.order_id = some order_w ∧
    (0 : Int) ≤ pay_w.amount_cents ∧
    ((create_payment_endpoint db_order pay_w).2 =
      .ok { status := "ok", order_id := order_w.id,
            order_status :=
              if pay_w.amount_cents ≥ order_w.total_cents then "paid" else order_w.status } ∧
     (create_payment_endpoint db_order pay_w).1.getOrder pay_w.order_id =
      some { order_w with
             status :=
               if pay_w.amount_cents ≥ order_w.total_cents then "paid" else order_w.status }) :=
  ⟨by decide, by decide,
   create_payment_sets_paid_iff_covered db_order pay_w order_w (by decide) (by decide)⟩

/-- C7: every payment call on an existing order with a nonnegative amount
persists exactly one new Payment row (amount, provider, timestamp),
unconditionally — also when the amount is zero or does not match the
total — and modifies no field of any order other than `status` (menu
items and order items are untouched as well); a negative amount is
rejected by input validation with the store unchanged. -/
theorem create_payment_persists_row (st : Db) (p : PaymentCreate)
    (order : Order) (hord : st.getOrder p.order_id = some order)
    (hamt : 0 ≤ p.amount_cents) :
    (create_payment_endpoint st p).1.payments =
      st.payments ++ [{ id := st.next_payment_id, order_id := p.order_id
                        provider := p.provider, amount_cents := p.amount_cents
                        created_at := st.clock }] ∧
    (create_payment_endpoint st p).1.orders.map Order.frame =
      st.orders.map Order.frame ∧
    (create_payment_endpoint st p).1.menu_items = st.menu_items ∧
    (create_payment_endpoint st p).1.order_items = st.order_items ∧
    ∀ q : PaymentCreate, q.amount_cents < 0 →
      (create_payment_endpoint st q).1 = st ∧
      (create_payment_endpoint st q).2 = .error validation_error := by
  have hv : p.valid = true := by simp [PaymentCreate.valid, hamt]
  unfold create_payment_endpoint
  rw [if_pos hv]
  unfold create_payment
  rw [hord]
  refine ⟨rfl, ?_, rfl, rfl, ?_⟩
  · rw [List.map_map]
    apply List.map_congr_left
    intro a _
    by_cases hx : (a.id == p.order_id) = true <;>
      simp [Order.frame, Function.comp, hx]
  · intro q hq
    have hqv : ¬(q.valid = true) := by
      simp [PaymentCreate.valid]
      omega
    rw [if_neg hqv]
    exact ⟨rfl, rfl⟩

/-- A zero-amount payment against order 1. -/
def pay_zero : PaymentCreate := { order_id := 1, amount_cents := 0, provider := "mock" }

theorem create_payment_persists_row_witness :
    db_order.getOrder pay_zero.order_id = some order_w ∧
    (0 : Int) ≤ pay_zero.amount_cents ∧
    ((create_payment_endpoint db_order pay_zero).1.payments =
      db_order.payments ++
        [{ id := db_order.next_payment_id, order_id := pay_zero.order_id
           provider := pay_zero.provider, amount_cents := pay_zero.amount_cents
           created_at := db_order.clock }] ∧
     (create_payment_endpoint db_order pay_zero).1.orders.map Order.frame =
       db_order.orders.map Order.frame ∧
     (create_payment_endpoint db_order pay_zero).1.menu_items = db_order.menu_items ∧
     (create_payment_endpoint db_order pay_zero).1.order_items = db_order.order_items ∧
     ∀ q : PaymentCreate, q.amount_cents < 0 →
       (create_payment_endpoint db_order q).1 = db_order ∧
       (create_payment_endpoint db_order q).2 = .error validation_error) :=
  ⟨by decide, by decide,
   create_payment_persists_row db_order pay_zero order_w (by decide) (by decide)⟩

/-- If the validation/pricing loop succeeds, every requested line passed
the per-line menu checks. -/
theorem process_lines_ok_all_ok (st : Db) (rid oid : Nat) :
    ∀ (lines : List OrderItemCreate) (nid : Nat) (acc : Int)
      (r : List OrderItem × Nat × Int),
      process_lines st rid oid lines nid acc = .ok r →
      ∀ l ∈ lines, line_menu_ok st rid l = true := by
  intro lines
  induction lines with
  | nil => intro nid acc r _ l hl; exact absurd hl (List.not_mem_nil l)
  | cons line rest ih =>
    intro nid acc r h l hl
    simp only [process_lines] at h
    cases hmi : st.getMenuItem line.menu_item_id with
    | none => rw [hmi] at h; exact absurd h (by simp)
    | some mi =>
      rw [hmi] at h
      simp only [] at h
      by_cases h1 : mi.restaurant_id ≠ rid
      · rw [if_pos h1] at h; exact absurd h (by simp)
      · rw [if_neg h1] at h
        by_cases h2 : mi.is_available = false
        · rw [if_pos h2] at h; exact absurd h (by simp)
        · rw [if_neg h2] at h
          cases hl with
          | head =>
            unfold line_menu_ok
            rw [hmi]
            simp only [not_not] at h1
            simp only [Bool.not_eq_false] at h2
            simp [h1, h2]
          | tail _ hmem =>
            cases hrec : process_lines st rid oid rest (nid + 1)
                (acc + mi.price_cents * line.quantity) with
            | error e => rw [hrec] at h; exact absurd h (by simp)
            | ok r2 => exact ih _ _ _ hrec l hmem

/-- The validation/pricing loop stops at the first failing line, with that
line's error. -/
theorem process_lines_first_bad (st : Db) (rid oid : Nat)
    (line : OrderItemCreate) (hbad : line_menu_ok st rid line = false) :
    ∀ (pre post : List OrderItemCreate) (nid : Nat) (acc : Int),
      (∀ l ∈ pre, line_menu_ok st rid l = true) →
      process_lines st rid oid (pre ++ line :: post) nid acc =
        .error (line_error st rid line) := by
  intro pre
  induction pre with
  | nil =>
    intro post nid acc _
    simp only [List.nil_append, process_lines]
    unfold line_menu_ok at hbad
    unfold line_error
    cases hmi : st.getMenuItem line.menu_item_id with
    | none => simp [hmi]
    | some mi =>
      rw [hmi] at hbad
      simp only [hmi]
      by_cases h1 : mi.restaurant_id ≠ rid
      · rw [if_pos h1, if_pos h1]
      · rw [if_neg h1, if_neg h1]
        have h2 : mi.is_available = false := by
          simp only [not_not] at h1
          simpa [h1] using hbad
        rw [if_pos h2]
  | cons a pre ih =>
    intro post nid acc hpre
    have ha := hpre a (List.mem_cons_self a pre)
    unfold line_menu_ok at ha
    cases hmi : st.getMenuItem a.menu_item_id with
    | none => rw [hmi] at ha; exact absurd ha (by simp)
    | some mi =>
      rw [hmi] at ha
      simp only [Bool.and_eq_true, beq_iff_eq] at ha
      simp only [List.cons_append, process_lines, hmi]
      rw [if_neg (by simp [ha.1])]
      rw [if_neg (by simp [ha.2])]
      simp only [List.append_eq]
      rw [ih post (nid + 1) (acc + mi.price_cents * a.quantity)
        (fun l hl => hpre l (List.mem_cons_of_mem a hl))]

/-- C1: any order-creation request containing at least one invalid line
(absent menu item, item of another restaurant, unavailable item, or
quantity below 1) fails, and afterwards no Order row and no OrderItem row
is visible beyond those already present: the whole operation aborts with
nothing written. -/
theorem create_order_invalid_line_aborts (st : Db) (p : OrderCreate)
    (h : ∃ line ∈ p.items, line_invalid st p.restaurant_id line) :
    (create_order_endpoint st p).1.orders = st.orders ∧
    (create_order_endpoint st p).1.order_items = st.order_items ∧
    ∃ e, (create_order_endpoint st p).2 = .error e := by
  unfold create_order_endpoint
  by_cases hv : p.valid = true
  · rw [if_pos hv]
    unfold create_order
    cases hr : st.getRestaurant p.restaurant_id with
    | none =>
      simp only [hr]
      exact ⟨trivial, trivial, http_error 404 "Restaurant not found", rfl⟩
    | some r =>
      simp only [hr]
      cases hpl : process_lines st p.restaurant_id st.next_order_id p.items
          st.next_order_item_id 0 with
      | error e =>
        simp only [hpl]
        exact ⟨trivial, trivial, e, rfl⟩
      | ok tr =>
        exfalso
        obtain ⟨line, hmem, hinv⟩ := h
        have hall := process_lines_ok_all_ok st p.restaurant_id st.next_order_id
          p.items st.next_order_item_id 0 tr hpl line hmem
        cases hinv with
        | inl hq =>
          have hq1 : (1 : Int) ≤ line.quantity := by
            unfold OrderCreate.valid at hv
            simp only [Bool.and_eq_true, List.all_eq_true, decide_eq_true_eq] at hv
            exact hv.2 line hmem
          omega
        | inr hko => rw [hall] at hko; exact Bool.noConfusion hko
  · rw [if_neg hv]
    exact ⟨rfl, rfl, validation_error, rfl⟩

/-- A request against `db_menu` whose single line references the
unavailable menu item 2. -/
def req_unavail : OrderCreate :=
  { restaurant_id := 1, items := [{ menu_item_id := 2, quantity := 1 }] }

theorem create_order_invalid_line_aborts_witness :
    (∃ line ∈ req_unavail.items, line_invalid db_menu req_unavail.restaurant_id line) ∧
    ((create_order_endpoint db_menu req_unavail).1.orders = db_menu.orders ∧
     (create_order_endpoint db_menu req_unavail).1.order_items = db_menu.order_items ∧
     ∃ e, (create_order_endpoint db_menu req_unavail).2 = .error e) :=
  ⟨by decide, create_order_invalid_line_aborts db_menu req_unavail (by decide)⟩

/-- A line whose menu item is absent or owned by another restaurant yields
the invalid-reference error and fails the per-line check. -/
theorem line_error_invalid_ref (st : Db) (rid : Nat) (line : OrderItemCreate)
    (h : st.getMenuItem line.menu_item_id = none ∨
      (∃ mi, st.getMenuItem line.menu_item_id = some mi ∧ mi.restaurant_id ≠ rid)) :
    line_error st rid line = http_error 400 (invalid_item_detail line.menu_item_id) ∧
    line_menu_ok st rid line = false := by
  unfold line_error line_menu_ok
  cases h with
  | inl h => simp [h]
  | inr h =>
    obtain ⟨mi, hmi, hne⟩ := h
    simp [hmi, hne]

/-- A line whose menu item exists, belongs to the restaurant, but is not
available yields the unavailable error and fails the per-line check. -/
theorem line_error_unavailable (st : Db) (rid : Nat) (line : OrderItemCreate)
    (h : ∃ mi, st.getMenuItem line.menu_item_id = some mi ∧
         mi.restaurant_id = rid ∧ mi.is_available = false) :
    line_error st rid line = http_error 400 (unavailable_detail line.menu_item_id) ∧
    line_menu_ok st rid line = false := by
  obtain ⟨mi, hmi, heq, hav⟩ := h
  unfold line_error line_menu_ok
  simp [hmi, heq, hav]

/-- With the restaurant present, `create_order` reports the error of the
first failing line. -/
theorem create_order_first_bad_error (st : Db) (p : OrderCreate)
    (hv : p.valid = true) (pre : List OrderItemCreate) (line : OrderItemCreate)
    (post : List OrderItemCreate) (heq : p.items = pre ++ line :: post)
    (hpre : ∀ l ∈ pre, line_menu_ok st p.restaurant_id l = true)
    (hbad : line_menu_ok st p.restaurant_id line = false)
    (r : Restaurant) (hr : st.getRestaurant p.restaurant_id = some r) :
    (create_order_endpoint st p).2 = .error (line_error st p.restaurant_id line) := by
  unfold create_order_endpoint
  rw [if_pos hv]
  unfold create_order
  simp only [hr]
  rw [heq]
  rw [process_lines_first_bad st p.restaurant_id st.next_order_id line hbad
    pre post st.next_order_item_id 0 hpre]

/-- C4: with a validated payload, `create_order` fails with 404 when the
restaurant is absent; otherwise the lines are checked in input order and
the first failing line determines the error: the invalid-reference 400
when its menu item does not exist or belongs to a different restaurant,
the unavailable 400 when the item exists for this restaurant but is not
marked available. -/
theorem create_order_error_precedence (st : Db) (p : OrderCreate)
    (hv : p.valid = true) :
    (st.getRestaurant p.restaurant_id = none →
      (create_order_endpoint st p).2 =
        .error (http_error 404 "Restaurant not found")) ∧
    (∀ pre line post, p.items = pre ++ line :: post →
      (∀ l ∈ pre, line_menu_ok st p.restaurant_id l = true) →
      ∀ r, st.getRestaurant p.restaurant_id = some r →
      ((st.getMenuItem line.menu_item_id = none ∨
        (∃ mi, st.getMenuItem line.menu_item_id = some mi ∧
               mi.restaurant_id ≠ p.restaurant_id)) →
        (create_order_endpoint st p).2 =
          .error (http_error 400 (invalid_item_detail line.menu_item_id))) ∧
      ((∃ mi, st.getMenuItem line.menu_item_id = some mi ∧
              mi.restaurant_id = p.restaurant_id ∧ mi.is_available = false) →
        (create_order_endpoint st p).2 =
          .error (http_error 400 (unavailable_detail line.menu_item_id)))) := by
  constructor
  · intro hr
    unfold create_order_endpoint
    rw [if_pos hv]
    unfold create_order
    simp [hr]
  · intro pre line post heq hpre r hr
    constructor
    · intro hcase
      obtain ⟨herr, hbad⟩ := line_error_invalid_ref st p.restaurant_id line hcase
      rw [create_order_first_bad_error st p hv pre line post heq hpre hbad r hr, herr]
    · intro hcase
      obtain ⟨herr, hbad⟩ := line_error_unavailable st p.restaurant_id line hcase
      rw [create_order_first_bad_error st p hv pre line post heq hpre hbad r hr, herr]

/-- A request whose first line is fine (item 1) and whose second line
references a nonexistent menu item 99. -/
def req_bad_ref : OrderCreate :=
  { restaurant_id := 1
    items := [{ menu_item_id := 1, quantity := 2 }, { menu_item_id := 99, quantity := 1 }] }

theorem create_order_error_precedence_witness :
    req_bad_ref.valid = true ∧
    ((db_menu.getRestaurant req_bad_ref.restaurant_id = none →
      (create_order_endpoint db_menu req_bad_ref).2 =
        .error (http_error 404 "Restaurant not found")) ∧
    (∀ pre line post, req_bad_ref.items = pre ++ line :: post →
      (∀ l ∈ pre, line_menu_ok db_menu req_bad_ref.restaurant_id l = true) →
      ∀ r, db_menu.getRestaurant req_bad_ref.restaurant_id = some r →
      ((db_menu.getMenuItem line.menu_item_id = none ∨
        (∃ mi, db_menu.getMenuItem line.menu_item_id = some mi ∧
               mi.restaurant_id ≠ req_bad_ref.restaurant_id)) →
        (create_order_endpoint db_menu req_bad_ref).2 =
          .error (http_error 400 (invalid_item_detail line.menu_item_id))) ∧
      ((∃ mi, db_menu.getMenuItem line.menu_item_id = some mi ∧
              mi.restaurant_id = req_bad_ref.restaurant_id ∧ mi.is_available = false) →
        (create_order_endpoint db_menu req_bad_ref).2 =
          .error (http_error 400 (unavailable_detail line.menu_item_id))))) :=
  ⟨by decide, create_order_error_precedence db_menu req_bad_ref (by decide)⟩

/-- Full characterization of a successful validation/pricing loop: the
total accumulates `price_each * quantity` over the staged rows, one row is
staged per requested line, every staged row belongs to the new order, and
the i-th staged row carries the i-th line's menu item and quantity with
the price snapshotted from that line's menu item. -/
theorem process_lines_ok_spec (st : Db) (rid oid : Nat) :
    ∀ (lines : List OrderItemCreate) (nid : Nat) (acc : Int)
      (items : List OrderItem) (nid2 : Nat) (tot : Int),
      process_lines st rid oid lines nid acc = .ok (items, nid2, tot) →
      tot = acc + (items.map (fun oi => oi.price_cents_each * oi.quantity)).sum ∧
      items.length = lines.length ∧
      (∀ oi ∈ items, oi.order_id = oid) ∧
      (∀ i (hi : i < lines.length) (hi2 : i < items.length), ∃ mi,
        st.getMenuItem (lines.get ⟨i, hi⟩).menu_item_id = some mi ∧
        (items.get ⟨i, hi2⟩).menu_item_id = (lines.get ⟨i, hi⟩).menu_item_id ∧
        (items.get ⟨i, hi2⟩).quantity = (lines.get ⟨i, hi⟩).quantity ∧
        (items.get ⟨i, hi2⟩).price_cents_each = mi.price_cents) := by
  intro lines
  induction lines with
  | nil =>
    intro nid acc items nid2 tot h
    simp only [process_lines] at h
    cases h
    refine ⟨by simp, rfl, by simp, ?_⟩
    intro i hi
    exact absurd hi (by simp)
  | cons line rest ih =>
    intro nid acc items nid2 tot h
    simp only [process_lines] at h
    cases hmi : st.getMenuItem line.menu_item_id with
    | none => rw [hmi] at h; exact absurd h (by simp)
    | some mi =>
      rw [hmi] at h
      simp only [] at h
      by_cases h1 : mi.restaurant_id ≠ rid
      · rw [if_pos h1] at h; exact absurd h (by simp)
      · rw [if_neg h1] at h
        by_cases h2 : mi.is_available = false
        · rw [if_pos h2] at h; exact absurd h (by simp)
        · rw [if_neg h2] at h
          cases hrec : process_lines st rid oid rest (nid + 1)
              (acc + mi.price_cents * line.quantity) with
          | error e => rw [hrec] at h; exact absurd h (by simp)
          | ok tr =>
            obtain ⟨items2, nid3, tot2⟩ := tr
            rw [hrec] at h
            cases h
            obtain ⟨hsum, hlen, hoid, hidx⟩ := ih _ _ _ _ _ hrec
            refine ⟨?_, by simp [hlen], ?_, ?_⟩
            · simp only [List.map_cons, List.sum_cons]
              rw [hsum]
              ring
            · intro oi hoi
              cases hoi with
              | head => rfl
              | tail _ hm => exact hoid oi hm
            · intro i hi hi2
              cases i with
              | zero => exact ⟨mi, hmi, rfl, rfl, rfl⟩
              | succ j =>
                simp only [List.length_cons] at hi hi2
                exact hidx j (Nat.lt_of_succ_lt_succ hi) (Nat.lt_of_succ_lt_succ hi2)

/-- Lemma: `find?` over an append whose left part yields nothing searches the
right part. -/
theorem find?_append_none {α : Type} (p : α → Bool) (l₁ l₂ : List α)
    (h : l₁.find? p = none) : (l₁ ++ l₂).find? p = l₂.find? p := by
  induction l₁ with
  | nil => rfl
  | cons a l ih =>
    rw [List.find?_cons] at h
    simp only [List.cons_append, List.find?_cons]
    cases hpa : p a with
    | true => rw [hpa] at h; exact absurd h (by simp)
    | false =>
      simp only [hpa] at h ⊢
      exact ih h

/-- C2: on every successful order creation against a sane store, the
order's `total_cents` equals the sum of `price_cents_each * quantity` over
the returned items, exactly one item is returned per submitted line, in
the same order, the i-th item carrying the i-th line's menu item id and
quantity with `price_cents_each` equal to that menu item's `price_cents`
at creation time. -/
theorem create_order_success_pricing (st : Db) (p : OrderCreate)
    (ord : OrderRead) (hwf : st.Wf)
    (h : (create_order_endpoint st p).2 = .ok ord) :
    ord.total_cents =
      (ord.items.map (fun it => it.price_cents_each * it.quantity)).sum ∧
    ord.items.length = p.items.length ∧
    (∀ i (hi : i < p.items.length) (hi2 : i < ord.items.length), ∃ mi,
      st.getMenuItem (p.items.get ⟨i, hi⟩).menu_item_id = some mi ∧
      (ord.items.get ⟨i, hi2⟩).menu_item_id = (p.items.get ⟨i, hi⟩).menu_item_id ∧
      (ord.items.get ⟨i, hi2⟩).quantity = (p.items.get ⟨i, hi⟩).quantity ∧
      (ord.items.get ⟨i, hi2⟩).price_cents_each = mi.price_cents) := by
  unfold create_order_endpoint at h
  by_cases hv : p.valid = true
  · rw [if_pos hv] at h
    unfold create_order at h
    cases hr : st.getRestaurant p.restaurant_id with
    | none => rw [hr] at h; exact absurd h (by simp)
    | some r =>
      rw [hr] at h
      simp only [] at h
      cases hpl : process_lines st p.restaurant_id st.next_order_id p.items
          st.next_order_item_id 0 with
      | error e => rw [hpl] at h; exact absurd h (by simp)
      | ok tr =>
        obtain ⟨new_items, nid2, total⟩ := tr
        rw [hpl] at h
        simp only [] at h
        obtain ⟨hsum, hlen, hoid, hidx⟩ := process_lines_ok_spec st p.restaurant_id
          st.next_order_id p.items st.next_order_item_id 0 new_items nid2 total hpl
        have hnone : st.orders.find? (fun o => o.id == st.next_order_id) = none := by
          rw [List.find?_eq_none]
          intro o ho
          have hlt := hwf.1 o ho
          simp only [beq_iff_eq]
          omega
        unfold Db.getOrder at h
        rw [find?_append_none _ _ _ hnone] at h
        simp only [List.find?_cons, beq_self_eq_true] at h
        injection h with h
        subst h
        have hfilter_old :
            st.order_items.filter (fun oi => oi.order_id == st.next_order_id) = [] := by
          rw [List.filter_eq_nil_iff]
          intro oi hoi
          have hlt := hwf.2 oi hoi
          simp only [beq_iff_eq]
          omega
        have hfilter_new :
            new_items.filter (fun oi => oi.order_id == st.next_order_id) = new_items := by
          rw [List.filter_eq_self]
          intro oi hoi
          simp only [beq_iff_eq]
          exact hoid oi hoi
        have hitems2 : List.filter (fun oi => oi.order_id == st.next_order_id)
            (st.order_items ++ new_items) = new_items := by
          rw [List.filter_append, hfilter_old, hfilter_new, List.nil_append]
        unfold order_to_read
        simp only [hitems2]
        refine ⟨?_, by simp [hlen], ?_⟩
        · rw [hsum, List.map_map]
          have hfun : ((fun it : OrderItemRead => it.price_cents_each * it.quantity) ∘
              (fun oi : OrderItem =>
                ({ id := oi.id, menu_item_id := oi.menu_item_id
                   quantity := oi.quantity
                   price_cents_each := oi.price_cents_each } : OrderItemRead))) =
              fun oi : OrderItem => oi.price_cents_each * oi.quantity := rfl
          rw [hfun]
          omega
        · intro i hi hi2
          simp only [List.length_map] at hi2
          obtain ⟨mi, hmi, ha, hb, hc⟩ := hidx i hi hi2
          refine ⟨mi, hmi, ?_, ?_, ?_⟩ <;>
            simp only [List.get_eq_getElem, List.getElem_map] <;>
            rw [List.getElem_of_eq hitems2] <;>
            simp only [List.get_eq_getElem] at ha hb hc
          · exact ha
          · exact hb
          · exact hc
  · rw [if_neg hv] at h
    exact absurd h (by simp)

/-- A valid two-unit request for menu item 1 against `db_menu`. -/
def req_ok : OrderCreate :=
  { restaurant_id := 1, items := [{ menu_item_id := 1, quantity := 2 }] }

/-- The order returned for `req_ok` against `db_menu`. -/
def ord_ok : OrderRead :=
  { id := 1, restaurant_id := 1, status := "created", total_cents := 1000
    created_at := 1
    items := [{ id := 1, menu_item_id := 1, quantity := 2, price_cents_each := 500 }] }

theorem create_order_success_pricing_witness :
    db_menu.Wf ∧
    (create_order_endpoint db_menu req_ok).2 = .ok ord_ok ∧
    (ord_ok.total_cents =
      (ord_ok.items.map (fun it => it.price_cents_each * it.quantity)).sum ∧
    ord_ok.items.length = req_ok.items.length ∧
    (∀ i (hi : i < req_ok.items.length) (hi2 : i < ord_ok.items.length), ∃ mi,
      db_menu.getMenuItem (req_ok.items.get ⟨i, hi⟩).menu_item_id = some mi ∧
      (ord_ok.items.get ⟨i, hi2⟩).menu_item_id =
        (req_ok.items.get ⟨i, hi⟩).menu_item_id ∧
      (ord_ok.items.get ⟨i, hi2⟩).quantity = (req_ok.items.get ⟨i, hi⟩).quantity ∧
      (ord_ok.items.get ⟨i, hi2⟩).price_cents_each = mi.price_cents)) :=
  ⟨by decide, by rfl,
   create_order_success_pricing db_menu req_ok ord_ok (by decide) (by rfl)⟩

/-- C8: with limit in [1,200] and offset ≥ 0 `list_orders` succeeds and
returns orders sorted by descending identifier, all matching the status
filter when one is supplied; omitting limit and offset behaves as the
defaults 50 and 0; limits outside [1,200] and negative offsets are
rejected by query validation. -/
theorem list_orders_spec (st : Db) (f : Option String) (lim off : Int)
    (h1 : 1 ≤ lim) (h2 : lim ≤ 200) (h3 : 0 ≤ off) :
    (∃ l, list_orders_endpoint st f (some lim) (some off) = .ok l ∧
      l.Pairwise (fun a b : OrderRead => b.id ≤ a.id) ∧
      (∀ s, f = some s → ∀ o ∈ l, o.status = s)) ∧
    list_orders_endpoint st f none none =
      list_orders_endpoint st f (some 50) (some 0) ∧
    (∀ lim2 : Int, lim2 < 1 ∨ 200 < lim2 →
      list_orders_endpoint st f (some lim2) (some off) = .error validation_error) ∧
    (∀ off2 : Int, off2 < 0 →
      list_orders_endpoint st f (some lim) (some off2) = .error validation_error) := by
  refine ⟨?_, rfl, ?_, ?_⟩
  · unfold list_orders_endpoint
    simp only [Option.getD_some]
    rw [if_neg (by omega), if_neg (by omega), if_neg (by omega)]
    refine ⟨_, rfl, ?_, ?_⟩
    · unfold list_orders_query
      have hpair : ∀ base : List Order,
          ((((base.insertionSort (fun a b => b.id ≤ a.id)).drop off.toNat).take
              lim.toNat).map (order_to_read st)).Pairwise
            (fun a b : OrderRead => b.id ≤ a.id) := by
        intro base
        have hsorted :=
          List.sorted_insertionSort (fun a b : Order => b.id ≤ a.id) base
        have hdrop := List.Pairwise.sublist
          ((List.take_sublist lim.toNat
              ((base.insertionSort (fun a b => b.id ≤ a.id)).drop off.toNat)).trans
            (List.drop_sublist off.toNat
              (base.insertionSort (fun a b => b.id ≤ a.id)))) hsorted
        exact hdrop.map (order_to_read st) (fun a b hab => hab)
      exact hpair _
    · intro s hs o ho
      subst hs
      unfold list_orders_query at ho
      obtain ⟨a, ha, rfl⟩ := List.mem_map.mp ho
      have ha2 := List.take_subset _ _ ha
      have ha3 := List.drop_subset _ _ ha2
      have ha4 := (List.perm_insertionSort (fun a b : Order => b.id ≤ a.id) _).mem_iff.mp ha3
      have ha5 := List.mem_filter.mp ha4
      simpa using ha5.2
  · intro lim2 hcase
    unfold list_orders_endpoint
    simp only [Option.getD_some]
    by_cases hlt : lim2 < 1
    · rw [if_pos hlt]
    · rw [if_neg hlt, if_pos (by omega)]
  · intro off2 hoff
    unfold list_orders_endpoint
    simp only [Option.getD_some]
    rw [if_neg (by omega), if_neg (by omega), if_pos hoff]

theorem list_orders_spec_witness :
    (1 : Int) ≤ 50 ∧ (50 : Int) ≤ 200 ∧ (0 : Int) ≤ 0 ∧
    ((∃ l, list_orders_endpoint db_order (some "created") (some 50) (some 0) = .ok l ∧
      l.Pairwise (fun a b : OrderRead => b.id ≤ a.id) ∧
      (∀ s, (some "created") = some s → ∀ o ∈ l, o.status = s)) ∧
    list_orders_endpoint db_order (some "created") none none =
      list_orders_endpoint db_order (some "created") (some 50) (some 0) ∧
    (∀ lim2 : Int, lim2 < 1 ∨ 200 < lim2 →
      list_orders_endpoint db_order (some "created") (some lim2) (some 0) =
        .error validation_error) ∧
    (∀ off2 : Int, off2 < 0 →
      list_orders_endpoint db_order (some "created") (some 50) (some off2) =
        .error validation_error)) :=
  ⟨by decide, by decide, by decide,
   list_orders_spec db_order (some "created") 50 0 (by decide) (by decide) (by decide)⟩

/-- C10: a zero price passes menu-item validation (`price_cents ≥ 0`), an
order of such an item is created with `total_cents = 0`, and a payment of
`amount_cents = 0` against it satisfies the coverage test and sets the
order status to "paid". -/
theorem zero_price_zero_total_paid :
    free_item_req.valid = true ∧ free_item_req.price_cents = 0 ∧
    (create_menu_item_endpoint rest_only free_item_req).2 =
      .ok { id := 1, restaurant_id := 1, name := "Free", description := none
            price_cents := 0, is_available := true, created_at := 1 } ∧
    (create_order_endpoint db_free free_order_req).2 =
      .ok { id := 1, restaurant_id := 1, status := "created", total_cents := 0
            created_at := 2
            items := [{ id := 1, menu_item_id := 1, quantity := 1
                        price_cents_each := 0 }] } ∧
    (create_payment_endpoint db_free_order free_payment).2 =
      .ok { status := "ok", order_id := 1, order_status := "paid" } ∧
    (create_payment_endpoint db_free_order free_payment).1.getOrder 1 =
      some { id := 1, restaurant_id := 1, status := "paid", total_cents := 0
             created_at := 2 } :=
  ⟨rfl, rfl, rfl, rfl, rfl, rfl⟩
